import Mathlib

set_option maxHeartbeats 1000000
set_option linter.unusedVariables false

/-!
Shallow embedding of the SARIMAX state-space specification logic
(statsmodels/tsa/statespace/sarimax.py) and the MLE driver
(statsmodels/tsa/statespace/mlemodel.py).

Machine floats are modelled as real numbers.  External collaborators that
are not part of the two source files (numpy linear algebra such as pinv
and polymul, the Kalman filter, scipy solve_discrete_lyapunov, the root
test is_invertible and the stationarity transform
constrain_stationary_univariate from tools.py, and the date handling of
the statsmodels time-series base classes) are passed in as explicit
function parameters of the embedded operations.
-/

/-- An AR or MA order entry: either an integer lag count or an explicit
0/1 inclusion list (sarimax.py, SARIMAX.__init__, lag polynomials). -/
inductive OrderSpec where
  | count (n : ℕ)
  | lags (l : List Bool)

/-- The trend argument (sarimax.py, SARIMAX.__init__): None/n, c, t, ct,
or an explicit polynomial given as its 0/1 inclusion pattern (the source
maps an arbitrary iterable through (np.array(trend) > 0).astype(int)). -/
inductive TrendSpec where
  | n
  | c
  | t
  | ct
  | custom (l : List Bool)

/-- Non-seasonal lag polynomial: np.r_[1., np.ones(order)] for an integer
order, np.r_[1., order] for an explicit inclusion list. -/
def polyFromOrder : OrderSpec → List Bool
  | .count n => true :: List.replicate n true
  | .lags l => true :: l

/-- Seasonal lag polynomial for an explicit lag list: start from
np.r_[1., [0]*(s*len(l))] and write l[i] at position (i+1)*s. -/
def polySeasonalLags (l : List Bool) (s : ℕ) : List Bool :=
  (List.range l.length).foldl
    (fun acc i => acc.set ((i + 1) * s) (l.getD i false))
    (true :: List.replicate (s * l.length) false)

/-- Seasonal lag polynomial: for an integer order n this is
np.r_[1., ([0]*(s-1) + [1]) * n]. -/
def polyFromSeasonalOrder : OrderSpec → ℕ → List Bool
  | .count n, s => true :: (List.replicate n (List.replicate (s - 1) false ++ [true])).flatten
  | .lags l, s => polySeasonalLags l s

/-- Deterministic trend polynomial (sarimax.py, SARIMAX.__init__). -/
def polyTrend : TrendSpec → List Bool
  | .n => []
  | .c => [true]
  | .t => [false, true]
  | .ct => [true, true]
  | .custom l => l

/-- Number of included (1) terms of a 0/1 polynomial, i.e. np.sum. -/
def countOnes (l : List Bool) : ℕ := l.countP (fun b => b)

/-- The constructor arguments of SARIMAX.__init__ that the embedded
pipeline depends on.  `exog_cols` is None when no exogenous data is given
and `some k` for an exogenous matrix with k columns (a 1-dimensional
array is promoted to one column by the source before the column count is
read). -/
structure SARIMAXInputs where
  order_p : OrderSpec := .count 1
  order_d : ℕ := 0
  order_q : OrderSpec := .count 0
  seasonal_P : OrderSpec := .count 0
  seasonal_D : ℕ := 0
  seasonal_Q : OrderSpec := .count 0
  seasonal_s : ℕ := 0
  trend : TrendSpec := .n
  measurement_error : Bool := false
  time_varying_regression : Bool := false
  mle_regression : Bool := true
  simple_differencing : Bool := false
  enforce_stationarity : Bool := true
  enforce_invertibility : Bool := true
  hamilton_representation : Bool := false
  exog_cols : Option ℕ := none

/-- The derived model attributes set by SARIMAX.__init__.
`sd_k_diff` and `sd_k_seasonal_diff` are the internal _k_diff and
_k_seasonal_diff after the optional simple differencing zeroed them. -/
structure Sarimax where
  k_seasons : ℕ
  measurement_error : Bool
  time_varying_regression : Bool
  mle_regression : Bool
  state_regression : Bool
  simple_differencing : Bool
  enforce_stationarity : Bool
  enforce_invertibility : Bool
  hamilton_representation : Bool
  polynomial_ar : List Bool
  polynomial_ma : List Bool
  polynomial_seasonal_ar : List Bool
  polynomial_seasonal_ma : List Bool
  polynomial_trend : List Bool
  k_ar : ℕ
  k_ar_params : ℕ
  k_diff : ℕ
  k_ma : ℕ
  k_ma_params : ℕ
  k_seasonal_ar : ℕ
  k_seasonal_ar_params : ℕ
  k_seasonal_diff : ℕ
  k_seasonal_ma : ℕ
  k_seasonal_ma_params : ℕ
  sd_k_diff : ℕ
  sd_k_seasonal_diff : ℕ
  k_trend : ℕ
  k_order : ℕ
  k_exog : ℕ
  k_states : ℕ
  k_diffuse_states : ℕ
  k_posdef : ℕ
  state_error : Bool
  k_params : ℕ
  initial_variance : ℝ
deriving Inhabited

/-- The attribute derivation of SARIMAX.__init__ (the part after the
validation raises), in source order.  `default_variance` is the
initial_variance default of the external statespace base class
(overridden to 1e10 for state regression by the constructor itself). -/
def buildSarimax (inp : SARIMAXInputs) (default_variance : ℝ) : Sarimax :=
    let s := inp.seasonal_s
    let polynomial_ar := polyFromOrder inp.order_p
    let polynomial_ma := polyFromOrder inp.order_q
    let polynomial_seasonal_ar := polyFromSeasonalOrder inp.seasonal_P s
    let polynomial_seasonal_ma := polyFromSeasonalOrder inp.seasonal_Q s
    let polynomial_trend := polyTrend inp.trend
    let k_ar := polynomial_ar.length - 1
    let k_ar_params := countOnes polynomial_ar - 1
    let k_diff := inp.order_d
    let k_ma := polynomial_ma.length - 1
    let k_ma_params := countOnes polynomial_ma - 1
    let k_seasonal_ar := polynomial_seasonal_ar.length - 1
    let k_seasonal_ar_params := countOnes polynomial_seasonal_ar - 1
    let k_seasonal_diff := inp.seasonal_D
    let k_seasonal_ma := polynomial_seasonal_ma.length - 1
    let k_seasonal_ma_params := countOnes polynomial_seasonal_ma - 1
    let k_trend := countOnes polynomial_trend
    let k_order :=
      if k_ar = 0 ∧ k_ma = 0 then 0
      else max (k_ar + k_seasonal_ar) (k_ma + k_seasonal_ma + 1)
    let k_exog := match inp.exog_cols with | none => 0 | some k => k
    let exog_present := inp.exog_cols.isSome
    let mle_regression := inp.mle_regression && exog_present && decide (0 < k_exog)
    let state_regression := !mle_regression && exog_present && decide (0 < k_exog)
    let measurement_error :=
      if state_regression && decide (k_order = 0) then true else inp.measurement_error
    let k_states :=
      k_order + (if inp.simple_differencing then 0 else s * k_seasonal_diff + k_diff) +
        (if state_regression then k_exog else 0)
    let k_diffuse_states := k_states - (if inp.enforce_stationarity then k_order else 0)
    let state_error := decide (0 < k_order)
    let k_posdef :=
      (if 0 < k_order then 1 else 0) +
        (if state_regression && inp.time_varying_regression then k_exog else 0)
    let initial_variance : ℝ := if state_regression then 10 ^ 10 else default_variance
    let k_params :=
      k_ar_params + k_ma_params + k_seasonal_ar_params + k_seasonal_ar_params +
        k_trend + (if measurement_error then 1 else 0) + 1 +
        (if mle_regression then k_exog else 0)
    let sd_zero := inp.simple_differencing && (decide (0 < k_diff) || decide (0 < k_seasonal_diff))
    {
      k_seasons := s
      measurement_error := measurement_error
      time_varying_regression := inp.time_varying_regression
      mle_regression := mle_regression
      state_regression := state_regression
      simple_differencing := inp.simple_differencing
      enforce_stationarity := inp.enforce_stationarity
      enforce_invertibility := inp.enforce_invertibility
      hamilton_representation := inp.hamilton_representation
      polynomial_ar := polynomial_ar
      polynomial_ma := polynomial_ma
      polynomial_seasonal_ar := polynomial_seasonal_ar
      polynomial_seasonal_ma := polynomial_seasonal_ma
      polynomial_trend := polynomial_trend
      k_ar := k_ar
      k_ar_params := k_ar_params
      k_diff := k_diff
      k_ma := k_ma
      k_ma_params := k_ma_params
      k_seasonal_ar := k_seasonal_ar
      k_seasonal_ar_params := k_seasonal_ar_params
      k_seasonal_diff := k_seasonal_diff
      k_seasonal_ma := k_seasonal_ma
      k_seasonal_ma_params := k_seasonal_ma_params
      sd_k_diff := if sd_zero then 0 else k_diff
      sd_k_seasonal_diff := if sd_zero then 0 else k_seasonal_diff
      k_trend := k_trend
      k_order := k_order
      k_exog := k_exog
      k_states := k_states
      k_diffuse_states := k_diffuse_states
      k_posdef := k_posdef
      state_error := state_error
      k_params := k_params
      initial_variance := initial_variance
    }

/-- SARIMAX.__init__: the validation raises, in source order, followed
by the attribute derivation of buildSarimax. -/
def mkSarimax (inp : SARIMAXInputs) (default_variance : ℝ) : Except String Sarimax :=
  if inp.time_varying_regression && inp.mle_regression then
    .error "Models with time-varying regression coefficients must integrate the coefficients as part of the state vector, so that mle_regression must be set to False."
  else if inp.time_varying_regression then
    .error "NotImplementedError"
  else if inp.hamilton_representation &&
      !(inp.simple_differencing || (decide (inp.order_d = 0) && decide (inp.seasonal_D = 0))) then
    .error "The Hamilton representation is only available for models in which there is no differencing integrated into the state vector. Set simple_differencing to True or set hamilton_representation to False"
  else
    .ok (buildSarimax inp default_variance)

/-- The parameter count stated by the specification: the sum of the
lengths of the parameter segments in the fixed order of the parameter
vector (trend, mle-regression exog, ar, ma, seasonal ar, seasonal ma,
time-varying exog variances, measurement variance, state variance).
Stated from the claim wording, for comparison with the k_params field
that the constructor computes. -/
def specKParams (m : Sarimax) : ℕ :=
  m.k_trend + (if m.mle_regression then m.k_exog else 0) +
    m.k_ar_params + m.k_ma_params +
    m.k_seasonal_ar_params + m.k_seasonal_ma_params +
    (if m.time_varying_regression then m.k_exog else 0) +
    (if m.measurement_error then 1 else 0) +
    (if m.state_error then 1 else 0)

/-- The order component of the state dimension as stated by the
specification: max(k_ar+k_seasonal_ar, k_ma+k_seasonal_ma+1), and 0 when
both the combined AR order and the combined MA order are zero.  Stated
from the claim wording, for comparison with the constructed k_states. -/
def specOrderComponent (m : Sarimax) : ℕ :=
  if m.k_ar + m.k_seasonal_ar = 0 ∧ m.k_ma + m.k_seasonal_ma = 0 then 0
  else max (m.k_ar + m.k_seasonal_ar) (m.k_ma + m.k_seasonal_ma + 1)

/-- The state dimension stated by the specification: order component plus
differencing component plus regression component. -/
def specKStates (m : Sarimax) : ℕ :=
  specOrderComponent m +
    (if m.simple_differencing then 0 else m.k_diff + m.k_seasons * m.k_seasonal_diff) +
    (if m.state_regression then m.k_exog else 0)

/-- End row (exclusive) of the reduced AR coefficient block that
SARIMAX.initialize caches as transition_ar_params_idx and that update
writes into the transition matrix: rows
[_k_diff + k_seasons*_k_seasonal_diff, ... + k_ar + k_seasonal_ar). -/
def transition_ar_end_row (m : Sarimax) : ℕ :=
  m.sd_k_diff + m.k_seasons * m.sd_k_seasonal_diff + m.k_ar + m.k_seasonal_ar

/-- Extract the model constructed for an input (used to name concrete
models in the theorems below). -/
def sarimaxOf (inp : SARIMAXInputs) (default_variance : ℝ) : Sarimax :=
  ((mkSarimax inp default_variance).toOption).getD default

/-! ## Parameter transform (sarimax.py, transform_params / untransform_params)

Both functions walk the parameter vector segment by segment, writing each
processed segment into a zero-initialised output of the same length.  The
segment lengths and the per-segment treatment depend only on the model.
The stationarity-enforcing transform constrain_stationary_univariate and
its inverse live in tools.py (outside the two source files) and are
passed in as the function parameters con / unc.  The source guards each
AR/MA block by a positivity test on its count; the guards are kept
because con is an external function that the source never calls on a
skipped (empty) segment.  x**0.5 on a constrained variance is modelled
as the real square root. -/

/-- A segment transformer (acts on one slice of the parameter vector). -/
abbrev SegF := List ℝ → List ℝ

/-- Square each entry: the variance constraint of transform_params. -/
def sqSeg : SegF := fun l => l.map (fun x => x ^ 2)

/-- Real square root of each entry: the variance step (x**0.5) of
untransform_params. -/
noncomputable def rtSeg : SegF := fun l => l.map Real.sqrt

/-- A segment transformer is length preserving (the collaborator
contract: constrain_stationary_univariate maps k reals to k reals). -/
def lenPres (f : SegF) : Prop := ∀ l : List ℝ, (f l).length = l.length

/-- Apply a list of (length, transformer) segments to a vector in order;
positions beyond the listed segments keep the zero initialisation. -/
def applySegs : List (ℕ × SegF) → List ℝ → List ℝ
  | [], u => List.replicate u.length 0
  | (n, f) :: rest, u => f (u.take n) ++ applySegs rest (u.drop n)

/-- Segment layout of transform_params: trend and mle-regression
coefficients are retained, AR/MA blocks are constrained when the
corresponding enforcement flag is set, variances are squared. -/
def transformSegs (m : Sarimax) (con : SegF) : List (ℕ × SegF) :=
  [ (m.k_trend, id),
    ((if m.mle_regression then m.k_exog else 0), id),
    (m.k_ar_params, if 0 < m.k_ar_params then (if m.enforce_stationarity then con else id) else id),
    (m.k_ma_params, if 0 < m.k_ma_params then (if m.enforce_invertibility then con else id) else id),
    ((if 0 < m.k_seasonal_ar then m.k_seasonal_ar_params else 0),
      if 0 < m.k_seasonal_ar then (if m.enforce_stationarity then con else id) else id),
    (m.k_seasonal_ma_params,
      if 0 < m.k_seasonal_ma_params then (if m.enforce_invertibility then con else id) else id),
    ((if m.state_regression && m.time_varying_regression then m.k_exog else 0), sqSeg),
    ((if m.measurement_error then 1 else 0), sqSeg),
    ((if m.state_error then 1 else 0), sqSeg) ]

/-- Segment layout of untransform_params: the inverse walk, with unc the
inverse stationarity transform and square roots on the variances. -/
noncomputable def untransformSegs (m : Sarimax) (unc : SegF) : List (ℕ × SegF) :=
  [ (m.k_trend, id),
    ((if m.mle_regression then m.k_exog else 0), id),
    (m.k_ar_params, if 0 < m.k_ar_params then (if m.enforce_stationarity then unc else id) else id),
    (m.k_ma_params, if 0 < m.k_ma_params then (if m.enforce_invertibility then unc else id) else id),
    ((if 0 < m.k_seasonal_ar then m.k_seasonal_ar_params else 0),
      if 0 < m.k_seasonal_ar then (if m.enforce_stationarity then unc else id) else id),
    (m.k_seasonal_ma_params,
      if 0 < m.k_seasonal_ma_params then (if m.enforce_invertibility then unc else id) else id),
    ((if m.state_regression && m.time_varying_regression then m.k_exog else 0), rtSeg),
    ((if m.measurement_error then 1 else 0), rtSeg),
    ((if m.state_error then 1 else 0), rtSeg) ]

/-- SARIMAX.transform_params. -/
def transform_params (m : Sarimax) (con : SegF) (unconstrained : List ℝ) : List ℝ :=
  applySegs (transformSegs m con) unconstrained

/-- SARIMAX.untransform_params. -/
noncomputable def untransform_params (m : Sarimax) (unc : SegF) (constrained : List ℝ) : List ℝ :=
  applySegs (untransformSegs m unc) constrained

/-! ## Start parameters (sarimax.py, SARIMAX.start_params)

The conditional-sum-of-squares regressions inside
_conditional_sum_squares use numpy pinv and lagmat (external to the two
source files), so their outputs are passed in as a CSSEstimates record;
is_invertible comes from tools.py and is passed as the parameter isInv.
start_params validates the estimates against the enforcement flags and
raises before assembling the starting vector. -/

/-- Outputs of the two _conditional_sum_squares calls and of the OLS
regression on exog, plus np.dot(endog, endog) for the variance
fallback. -/
structure CSSEstimates where
  params_exog : List ℝ
  params_trend : List ℝ
  params_ar : List ℝ
  params_ma : List ℝ
  params_variance : Option ℝ
  params_seasonal_ar : List ℝ
  params_seasonal_ma : List ℝ
  params_seasonal_variance : Option ℝ
  endog_dot : ℝ

/-- The starting vector assembled at the end of start_params (the np.r_
concatenation, including the exog-variance, measurement-variance and
variance fallbacks). -/
def startParamsVector (m : Sarimax) (css : CSSEstimates) : List ℝ :=
  let params_exog := if m.state_regression then [] else css.params_exog
  let params_exog_variance :=
    if m.state_regression && m.time_varying_regression then
      List.replicate m.k_exog (1 : ℝ)
    else []
  let params_variance :=
    if m.state_error && css.params_variance.isNone then
      match css.params_seasonal_variance with
      | some v => some v
      | none => if 0 < m.k_exog then some css.endog_dot else some 1
    else css.params_variance
  let params_measurement_variance := if m.measurement_error then [(1 : ℝ)] else []
  css.params_trend ++ params_exog ++ css.params_ar ++ css.params_ma ++
    css.params_seasonal_ar ++ css.params_seasonal_ma ++ params_exog_variance ++
    params_measurement_variance ++ params_variance.toList

/-- Whether an Except is an error. -/
def isErr {ε α : Type _} : Except ε α → Bool
  | .error _ => true
  | .ok _ => false

/-- SARIMAX.start_params: the four stationarity/invertibility checks (in
source order) followed by the assembly of the starting vector. -/
def start_params (m : Sarimax) (isInv : List ℝ → Bool) (css : CSSEstimates) :
    Except String (List ℝ) :=
  if decide (0 < m.k_ar) && m.enforce_stationarity &&
      !isInv (css.params_ar.map (fun x => -x)) then
    .error "Non-stationary starting autoregressive parameters found with enforce_stationarity set to True."
  else if decide (0 < m.k_ma) && m.enforce_invertibility && !isInv css.params_ma then
    .error "non-invertible starting MA parameters found with enforce_invertibility set to True."
  else if decide (0 < m.k_seasonal_ar) && m.enforce_stationarity &&
      !isInv (css.params_seasonal_ar.map (fun x => -x)) then
    .error "Non-stationary starting autoregressive parameters found with enforce_stationarity set to True."
  else if decide (0 < m.k_seasonal_ma) && m.enforce_invertibility &&
      !isInv css.params_seasonal_ma then
    .error "non-invertible starting seasonal moving average parameters found with enforce_invertibility set to True."
  else .ok (startParamsVector m css)

/-! ## MLE driver (mlemodel.py) -/

/-- The condition under which MLEModel.fit runs the second minimization
pass: the source line is
  if bfgs_tune and method == lbfgs or method == bfgs
which by Python operator precedence is
  (bfgs_tune and method == lbfgs) or (method == bfgs). -/
def fit_second_pass (bfgs_tune : Bool) (method : String) : Bool :=
  (bfgs_tune && method == "lbfgs") || method == "bfgs"

/-- The condition stated by the claim: the second refinement pass runs
exactly when bfgs_tune is set and the method is a BFGS-family method. -/
def spec_second_pass (bfgs_tune : Bool) (method : String) : Bool :=
  bfgs_tune && (method == "lbfgs" || method == "bfgs")

/-- The approx_grad mode of each minimization pass executed by fit: the
first pass defaults approx_grad to True for the BFGS-family methods, and
the optional second pass sets approx_grad to False (exact complex-step
gradient). -/
def fit_approx_grad_passes (bfgs_tune : Bool) (method : String) : List Bool :=
  [method == "lbfgs" || method == "bfgs"] ++
    (if fit_second_pass bfgs_tune method then [false] else [])

/-- The exogenous-data guard of SARIMAXResults.predict: the source line
  if _out_of_sample and self.mle_regression or self.state_regression
parses as (_out_of_sample and mle_regression) or state_regression; when
it holds, a missing exog raises, and a wrongly shaped exog raises. The
out_of_sample count comes from the external date handling
(_get_predict_end); exog is abstracted to its shape. -/
def predictExogGuard (mle_regression state_regression : Bool)
    (out_of_sample k_exog : ℕ) (exog : Option (ℕ × ℕ)) : Except String Unit :=
  if (decide (0 < out_of_sample) && mle_regression) || state_regression then
    match exog with
    | none =>
        .error "Out-of-sample forecasting in a model with a regression component requires additional exogenous values via the exog argument"
    | some shape =>
        if shape = (out_of_sample, k_exog) then .ok ()
        else .error "Provided exogenous values are not of the appropriate shape."
  else .ok ()

/-- The model state that MLEModel.loglike reads: the constrained
parameters currently written into the representation matrices (set by
update), the stored params attribute, and the observation count. -/
structure MLEState where
  cur : List ℝ
  params : Option (List ℝ)
  nobs : ℕ

/-- MLEModel.update: optionally transform, optionally store, and leave
the (subclass-written) representation at the new constrained vector. -/
def mle_update (transformF : List ℝ → List ℝ) (st : MLEState) (p : List ℝ)
    (transformed set_params : Bool) : MLEState × List ℝ :=
  let p2 := if transformed then p else transformF p
  ({ st with cur := p2, params := if set_params then some p2 else st.params }, p2)

/-- MLEModel.loglike: optionally update, delegate the summed
log-likelihood to the external filter (filterLL, evaluated at the
current representation), and divide by nobs when average_loglike. -/
noncomputable def mle_loglike (filterLL : List ℝ → ℝ) (transformF : List ℝ → List ℝ)
    (st : MLEState) (params : Option (List ℝ))
    (average_loglike transformed set_params : Bool) : ℝ × MLEState :=
  let st2 :=
    match params with
    | none => st
    | some p => (mle_update transformF st p transformed set_params).1
  let L := filterLL st2.cur
  (if average_loglike then L / st2.nobs else L, st2)

/-! ## Post-fit statistics (mlemodel.py, MLEResults) -/

/-- The fields of MLEResults that the information criteria read. -/
structure MLEResultsData where
  loglikelihood : List ℝ
  loglikelihood_burn : ℕ
  params : List ℝ
  nobs : ℕ

/-- MLEResults.llf: sum of the per-observation log-likelihoods after the
burn count. -/
def llf (r : MLEResultsData) : ℝ := (r.loglikelihood.drop r.loglikelihood_burn).sum

/-- MLEResults.aic. -/
def aic (r : MLEResultsData) : ℝ := -2 * llf r + 2 * r.params.length

/-- MLEResults.bic. -/
noncomputable def bic (r : MLEResultsData) : ℝ :=
  -2 * llf r + r.params.length * Real.log r.nobs

/-- MLEResults.hqic. -/
noncomputable def hqic (r : MLEResultsData) : ℝ :=
  -2 * llf r + 2 * Real.log (Real.log r.nobs) * r.params.length

/-! ## State initialization (sarimax.py, SARIMAX.initialize_state)

The scipy solve_discrete_lyapunov call is external; its solution for the
stationary sub-block is passed in as lyapSol.  Only the choice of
installed initialization matters for the claims, so the model is reduced
to the fields initialize_state reads. -/

/-- The initialization installed on a model. -/
inductive StateInitSpec where
  | unset
  | known (mean : ℕ → ℝ) (cov : ℕ → ℕ → ℝ)
  | approxDiffuse (variance : Option ℝ)
  | stationaryK

/-- The initialization-relevant state of a SARIMAX model. -/
structure InitModel where
  k_states : ℕ
  k_exog : ℕ
  k_order : ℕ
  state_regression : Bool
  enforce_stationarity : Bool
  initial_variance : ℝ
  manual_init : Bool
  state_init : StateInitSpec

/-- SARIMAX.initialize_known (sets the manual-initialization flag). -/
def init_known (m : InitModel) (mean : ℕ → ℝ) (cov : ℕ → ℕ → ℝ) : InitModel :=
  { m with manual_init := true, state_init := .known mean cov }

/-- SARIMAX.initialize_approximate_diffuse (sets the flag). -/
def init_approx_diffuse (m : InitModel) (variance : Option ℝ) : InitModel :=
  { m with manual_init := true, state_init := .approxDiffuse variance }

/-- SARIMAX.initialize_state.  Mirrors the source control flow: after the
manual-initialization early return, the not-enforce_stationarity branch
calls initialize_approximate_diffuse and then — with no return statement
— execution falls through to build the mixed diffuse/stationary
covariance (variance times identity with the stationary sub-block
replaced by the Lyapunov solution when the order component is positive)
and install it via initialize_known. -/
def init_state (lyapSol : ℕ → ℕ → ℝ) (m : InitModel) (variance : Option ℝ) : InitModel :=
  if m.manual_init then m
  else
    let m1 := if !m.enforce_stationarity then init_approx_diffuse m variance else m
    let v := variance.getD m.initial_variance
    let mean : ℕ → ℝ := fun _ => 0
    let startIdx :=
      if m.state_regression then m.k_states - (m.k_exog + m.k_order)
      else m.k_states - m.k_order
    let stopIdx :=
      if m.state_regression then
        (if 0 < m.k_exog then m.k_states - m.k_exog else m.k_states)
      else m.k_states
    let baseCov : ℕ → ℕ → ℝ := fun i j => if i = j ∧ i < m.k_states then v else 0
    let cov : ℕ → ℕ → ℝ :=
      if 0 < m.k_order then
        fun i j =>
          if startIdx ≤ i ∧ i < stopIdx ∧ startIdx ≤ j ∧ j < stopIdx then
            lyapSol (i - startIdx) (j - startIdx)
          else baseCov i j
      else baseCov
    init_known m1 mean cov

/-- Whether the installed initialization is the approximate-diffuse
one. -/
def isApproxDiffuse : StateInitSpec → Bool
  | .approxDiffuse _ => true
  | _ => false

/-! ## Concrete instances used by the claim theorems -/

/-- All-default constructor input: order (1,0,0), no seasonal component,
no trend, no exog. -/
def inpDefault : SARIMAXInputs := {}

/-- order=(1,0,0), seasonal_order=(0,0,1,4): the seasonal MA term makes
the k_params duplication visible. -/
def inpC1 : SARIMAXInputs := { seasonal_Q := .count 1, seasonal_s := 4 }

/-- order=(0,0,0), seasonal_order=(1,0,0,4): a purely seasonal AR
model. -/
def inpC3 : SARIMAXInputs := { order_p := .count 0, seasonal_P := .count 1, seasonal_s := 4 }

/-- order=(1,0,0) with enforce_stationarity off: every parameter lies in
an identity or variance segment. -/
def inpC2x : SARIMAXInputs := { enforce_stationarity := false }

/-- The model of inpDefault. -/
def mDefault : Sarimax := sarimaxOf inpDefault 1

/-- The model of inpC1. -/
def mC1 : Sarimax := sarimaxOf inpC1 1

/-- The model of inpC3. -/
def mC3 : Sarimax := sarimaxOf inpC3 1

/-- The model of inpC2x. -/
def mC2x : Sarimax := sarimaxOf inpC2x 1

/-- CSS estimates for the inpC1 model: one AR value, one seasonal MA
value, a variance. -/
def cssC1 : CSSEstimates :=
  { params_exog := [], params_trend := [], params_ar := [5], params_ma := [],
    params_variance := some 1, params_seasonal_ar := [], params_seasonal_ma := [7],
    params_seasonal_variance := none, endog_dot := 0 }

/-- CSS estimates for the default model: one AR value. -/
def cssW6 : CSSEstimates :=
  { params_exog := [], params_trend := [], params_ar := [2], params_ma := [],
    params_variance := none, params_seasonal_ar := [], params_seasonal_ma := [],
    params_seasonal_variance := none, endog_dot := 0 }

/-- Initialization state of an order-(1,0,0) model with
enforce_stationarity off and no manual initialization. -/
def mC4 : InitModel :=
  { k_states := 1, k_exog := 0, k_order := 1, state_regression := false,
    enforce_stationarity := false, initial_variance := 10 ^ 6,
    manual_init := false, state_init := .unset }

/-- A results record with an empty parameter vector and 8
observations. -/
def rC9 : MLEResultsData :=
  { loglikelihood := [], loglikelihood_burn := 0, params := [], nobs := 8 }

/-- A results record with one parameter and 8 observations. -/
def rW9 : MLEResultsData :=
  { loglikelihood := [], loglikelihood_burn := 0, params := [0], nobs := 8 }

/-- A model state with two observations. -/
def stW8 : MLEState := { cur := [], params := none, nobs := 2 }

theorem applySegs_cons_append (n : ℕ) (f : SegF) (L : List (ℕ × SegF))
    (a b : List ℝ) (ha : a.length = n) :
    applySegs ((n, f) :: L) (a ++ b) = f a ++ applySegs L b := by
  simp [applySegs, List.take_left' ha, List.drop_left' ha]

theorem applySegs_single (n : ℕ) (f : SegF) (a : List ℝ) (ha : a.length = n) :
    applySegs [(n, f)] a = f a := by
  subst ha
  simp [applySegs]

theorem guard_seg_round (g : Prop) [Decidable g] (b : Bool) (con unc : SegF)
    (hcon : lenPres con) (hunc : lenPres unc) (x : List ℝ) (hg : ¬ g → x = []) :
    (if g then (if b then unc else id) else id)
        ((if g then (if b then con else id) else id) x) =
      if b then unc (con x) else x := by
  by_cases h : g
  · simp only [if_pos h]
    cases b <;> simp
  · have hx := hg h
    subst hx
    have hcnil : con [] = [] := List.eq_nil_of_length_eq_zero (by simp [hcon []])
    have hunil : unc [] = [] := List.eq_nil_of_length_eq_zero (by simp [hunc []])
    simp [if_neg h, hcnil, hunil]

theorem rtSeg_sqSeg (l : List ℝ) (h : ∀ x ∈ l, 0 ≤ x) : rtSeg (sqSeg l) = l := by
  simp only [rtSeg, sqSeg, List.map_map]
  have : ∀ x ∈ l, (Real.sqrt ∘ fun y => y ^ 2) x = id x := by
    intro x hx
    simp [Real.sqrt_sq (h x hx)]
  rw [List.map_congr_left this, List.map_id]

theorem lenPres_id : lenPres id := fun _ => rfl

theorem lenPres_sqSeg : lenPres sqSeg := fun l => by simp [sqSeg]

theorem lenPres_ite (g : Prop) [Decidable g] (f h : SegF) (hf : lenPres f)
    (hh : lenPres h) : lenPres (if g then f else h) := by
  by_cases hg : g
  · simpa [hg] using hf
  · simpa [hg] using hh

/-- C2 (amended): the round trip untransform_params after
transform_params is the identity on the trend and mle-regression
segments, on every AR/MA segment whose enforcement flag is off, and on
the variance segments provided their unconstrained entries are
non-negative (on a negative variance entry the square followed by the
square root returns the absolute value instead); the enforcement-flag-on
segments go through unc after con. -/
theorem claim_C2 (m : Sarimax) (con unc : SegF) (hcon : lenPres con) (hunc : lenPres unc)
    (ut ux uar uma usar usma utv ume usv : List ℝ)
    (h1 : ut.length = m.k_trend)
    (h2 : ux.length = if m.mle_regression then m.k_exog else 0)
    (h3 : uar.length = m.k_ar_params)
    (h4 : uma.length = m.k_ma_params)
    (h5 : usar.length = if 0 < m.k_seasonal_ar then m.k_seasonal_ar_params else 0)
    (h6 : usma.length = m.k_seasonal_ma_params)
    (h7 : utv.length = if m.state_regression && m.time_varying_regression then m.k_exog else 0)
    (h8 : ume.length = if m.measurement_error then 1 else 0)
    (h9 : usv.length = if m.state_error then 1 else 0)
    (htv : ∀ x ∈ utv, 0 ≤ x) (hme : ∀ x ∈ ume, 0 ≤ x) (hsv : ∀ x ∈ usv, 0 ≤ x) :
    untransform_params m unc (transform_params m con
        (ut ++ ux ++ uar ++ uma ++ usar ++ usma ++ utv ++ ume ++ usv)) =
      ut ++ ux ++ (if m.enforce_stationarity then unc (con uar) else uar)
        ++ (if m.enforce_invertibility then unc (con uma) else uma)
        ++ (if m.enforce_stationarity then unc (con usar) else usar)
        ++ (if m.enforce_invertibility then unc (con usma) else usma)
        ++ utv ++ ume ++ usv := by
  have p3 : lenPres (if 0 < m.k_ar_params then (if m.enforce_stationarity then con else id) else id) :=
    lenPres_ite _ _ _ (lenPres_ite _ _ _ hcon lenPres_id) lenPres_id
  have p4 : lenPres (if 0 < m.k_ma_params then (if m.enforce_invertibility then con else id) else id) :=
    lenPres_ite _ _ _ (lenPres_ite _ _ _ hcon lenPres_id) lenPres_id
  have p5 : lenPres (if 0 < m.k_seasonal_ar then (if m.enforce_stationarity then con else id) else id) :=
    lenPres_ite _ _ _ (lenPres_ite _ _ _ hcon lenPres_id) lenPres_id
  have p6 : lenPres (if 0 < m.k_seasonal_ma_params then (if m.enforce_invertibility then con else id) else id) :=
    lenPres_ite _ _ _ (lenPres_ite _ _ _ hcon lenPres_id) lenPres_id
  unfold transform_params untransform_params transformSegs untransformSegs
  simp only [List.append_assoc]
  rw [applySegs_cons_append _ _ _ _ _ h1, applySegs_cons_append _ _ _ _ _ h2,
    applySegs_cons_append _ _ _ _ _ h3, applySegs_cons_append _ _ _ _ _ h4,
    applySegs_cons_append _ _ _ _ _ h5, applySegs_cons_append _ _ _ _ _ h6,
    applySegs_cons_append _ _ _ _ _ h7, applySegs_cons_append _ _ _ _ _ h8,
    applySegs_single _ _ _ h9]
  simp only [id_eq]
  rw [applySegs_cons_append _ _ _ _ _ h1, applySegs_cons_append _ _ _ _ _ h2,
    applySegs_cons_append _ _ _ _ _ ((p3 uar).trans h3),
    applySegs_cons_append _ _ _ _ _ ((p4 uma).trans h4),
    applySegs_cons_append _ _ _ _ _ ((p5 usar).trans h5),
    applySegs_cons_append _ _ _ _ _ ((p6 usma).trans h6),
    applySegs_cons_append _ _ _ _ _ ((lenPres_sqSeg utv).trans h7),
    applySegs_cons_append _ _ _ _ _ ((lenPres_sqSeg ume).trans h8),
    applySegs_single _ _ _ ((lenPres_sqSeg usv).trans h9)]
  rw [guard_seg_round _ _ con unc hcon hunc uar
      (fun hg => List.eq_nil_of_length_eq_zero (by omega)),
    guard_seg_round _ _ con unc hcon hunc uma
      (fun hg => List.eq_nil_of_length_eq_zero (by omega)),
    guard_seg_round _ _ con unc hcon hunc usar
      (fun hg => List.eq_nil_of_length_eq_zero (by simp [h5, hg])),
    guard_seg_round _ _ con unc hcon hunc usma
      (fun hg => List.eq_nil_of_length_eq_zero (by omega)),
    rtSeg_sqSeg utv htv, rtSeg_sqSeg ume hme, rtSeg_sqSeg usv hsv]
  simp only [id_eq]


/-- C1: the claim states that k_params is the sum of the parameter
segment lengths (trend, mle-regression exog, ar, ma, seasonal ar,
seasonal ma, time-varying exog variances, measurement variance, state
variance).  For order=(1,0,0), seasonal_order=(0,0,1,4) the constructor
computes k_params = 2 (it counts k_seasonal_ar_params twice and never
k_seasonal_ma_params, and adds 1 unconditionally instead of
state_error), while the segment lengths sum to 3 and start_params
assembles a starting vector of 3 entries. -/
theorem claim_C1 :
    ∃ m : Sarimax, mkSarimax inpC1 1 = .ok m ∧ m.k_params = 2 ∧ specKParams m = 3 ∧
      start_params m (fun _ => true) cssC1 = .ok [5, 7, 1] ∧
      ([5, 7, 1] : List ℝ).length ≠ m.k_params :=
  ⟨mC1, rfl, rfl, rfl, rfl, by decide⟩

/-- C3: the claim states that the order component of k_states is zero
only when both the combined AR order and the combined MA order are zero.
For order=(0,0,0), seasonal_order=(1,0,0,4) the constructor zeroes
_k_order because only the non-seasonal p and q are zero, giving
k_states = 0, while the claimed value is 4; the reduced-AR row range
that initialize caches (and update writes) then exceeds the state
dimension. -/
theorem claim_C3 :
    ∃ m : Sarimax, mkSarimax inpC3 1 = .ok m ∧ m.k_states = 0 ∧ specKStates m = 4 ∧
      m.k_states < transition_ar_end_row m :=
  ⟨mC3, rfl, rfl, rfl, by decide⟩

/-- C4: the claim states that with no manual initialization and
enforce_stationarity off, initialize_state installs the
approximate-diffuse initialization (mean zero, covariance variance
times identity) and no Lyapunov sub-block.  On an order-(1,0,0) model
with enforce_stationarity off the source instead falls through (the
diffuse branch has no return statement) and ends by installing, via
initialize_known, the mixed covariance whose stationary block is the
Lyapunov solution (here the stub value 37, not the default variance). -/
theorem claim_C4 :
    isApproxDiffuse (init_state (fun _ _ => 37) mC4 none).state_init = false ∧
      ∃ c : ℕ → ℕ → ℝ,
        (init_state (fun _ _ => 37) mC4 none).state_init = .known (fun _ => 0) c ∧
          c 0 0 = 37 ∧ c 0 0 ≠ mC4.initial_variance := by
  refine ⟨rfl, _, rfl, ?_, ?_⟩
  · norm_num [mC4]
  · norm_num [mC4]

/-- C5: the claim states the second refinement pass runs exactly when
bfgs_tune is set and the method is BFGS-family, and never when
bfgs_tune is false.  Because the source condition parses as
(bfgs_tune and method == lbfgs) or (method == bfgs), a fit with
method bfgs and bfgs_tune false still runs a second pass (in
exact-gradient mode), though the claimed condition is false there. -/
theorem claim_C5 :
    fit_second_pass false "bfgs" = true ∧ spec_second_pass false "bfgs" = false ∧
      fit_approx_grad_passes false "bfgs" = [true, false] := by
  decide

/-- C6: during automatic start-parameter estimation, if a
stationarity/invertibility enforcement flag is on and the corresponding
conditional-sum-of-squares estimate fails the root test, start_params
raises instead of returning a starting vector. -/
theorem claim_C6 (m : Sarimax) (isInv : List ℝ → Bool) (css : CSSEstimates)
    (h : (0 < m.k_ar ∧ m.enforce_stationarity = true ∧
            isInv (css.params_ar.map (fun x => -x)) = false)
       ∨ (0 < m.k_ma ∧ m.enforce_invertibility = true ∧ isInv css.params_ma = false)
       ∨ (0 < m.k_seasonal_ar ∧ m.enforce_stationarity = true ∧
            isInv (css.params_seasonal_ar.map (fun x => -x)) = false)
       ∨ (0 < m.k_seasonal_ma ∧ m.enforce_invertibility = true ∧
            isInv css.params_seasonal_ma = false)) :
    isErr (start_params m isInv css) = true := by
  unfold start_params
  split_ifs with c1 c2 c3 c4
  · rfl
  · rfl
  · rfl
  · rfl
  · exfalso
    simp only [Bool.and_eq_true, decide_eq_true_eq, Bool.not_eq_true',
      not_and] at c1 c2 c3 c4
    rcases h with ⟨ha, hb, hc⟩ | ⟨ha, hb, hc⟩ | ⟨ha, hb, hc⟩ | ⟨ha, hb, hc⟩
    · exact c1 ⟨ha, hb⟩ hc
    · exact c2 ⟨ha, hb⟩ hc
    · exact c3 ⟨ha, hb⟩ hc
    · exact c4 ⟨ha, hb⟩ hc

/-- C6 witness: the default order-(1,0,0) model with a root test that
rejects the AR estimate. -/
theorem claim_C6_witness :
    (0 < mDefault.k_ar ∧ mDefault.enforce_stationarity = true ∧
        (fun _ : List ℝ => false) (cssW6.params_ar.map (fun x => -x)) = false) ∧
      isErr (start_params mDefault (fun _ => false) cssW6) = true :=
  ⟨⟨by decide, rfl, rfl⟩,
    claim_C6 mDefault (fun _ => false) cssW6 (Or.inl ⟨by decide, rfl, rfl⟩)⟩

/-- C7: predicting any positive number of steps beyond the end of the
sample on a model with a regression component (mle regression or state
regression) without an exog argument raises the out-of-sample
exogenous-data-required error. -/
theorem claim_C7 (mle_regression state_regression : Bool) (out_of_sample k_exog : ℕ)
    (hoos : 0 < out_of_sample)
    (hreg : mle_regression = true ∨ state_regression = true) :
    predictExogGuard mle_regression state_regression out_of_sample k_exog none =
      .error "Out-of-sample forecasting in a model with a regression component requires additional exogenous values via the exog argument" := by
  unfold predictExogGuard
  rcases hreg with h | h <;> simp [h, hoos]

/-- C7 witness: five steps out of sample with mle regression and no
exog. -/
theorem claim_C7_witness :
    0 < 5 ∧ (true = true ∨ false = true) ∧
      predictExogGuard true false 5 2 none =
        .error "Out-of-sample forecasting in a model with a regression component requires additional exogenous values via the exog argument" :=
  ⟨by decide, Or.inl rfl, claim_C7 true false 5 2 (by decide) (Or.inl rfl)⟩

/-- C8: the log-likelihood with average_loglike true equals the
log-likelihood with average_loglike false divided by nobs, exactly, for
every model state, filter, transform and parameter argument. -/
theorem claim_C8 (filterLL : List ℝ → ℝ) (transformF : List ℝ → List ℝ)
    (st : MLEState) (params : Option (List ℝ)) (transformed set_params : Bool)
    (h : 0 < st.nobs) :
    (mle_loglike filterLL transformF st params true transformed set_params).1 =
      (mle_loglike filterLL transformF st params false transformed set_params).1 /
        (st.nobs : ℝ) := by
  cases params <;> simp [mle_loglike, mle_update]

/-- C8 witness: a constant filter value 10 over two observations. -/
theorem claim_C8_witness :
    0 < stW8.nobs ∧
      (mle_loglike (fun _ => 10) id stW8 none true true true).1 =
        (mle_loglike (fun _ => 10) id stW8 none false true true).1 / (stW8.nobs : ℝ) :=
  ⟨by decide, claim_C8 (fun _ => 10) id stW8 none true true (by decide)⟩

theorem exp_two_lt_eight : Real.exp 2 < 8 := by
  have h1 : Real.exp 1 < 2.7182818286 := Real.exp_one_lt_d9
  have h2 : (0 : ℝ) < Real.exp 1 := Real.exp_pos 1
  have h3 : Real.exp 2 = Real.exp 1 * Real.exp 1 := by
    rw [← Real.exp_add]
    norm_num
  nlinarith

/-- C9 counterexample: for a fitted result with an empty parameter
vector and 8 observations (8 exceeds e squared), AIC equals BIC, so the
claimed strict ordering AIC < BIC fails. -/
theorem claim_C9_cex :
    Real.exp 2 < (rC9.nobs : ℝ) ∧ ¬ aic rC9 < bic rC9 := by
  constructor
  · have : ((rC9.nobs : ℕ) : ℝ) = 8 := by norm_num [rC9]
    rw [this]
    exact exp_two_lt_eight
  · unfold aic bic llf rC9
    norm_num

/-- C9 (amended): AIC = -2 llf + 2 k_params, BIC = -2 llf + k_params
ln nobs, and for a fixed fitted log-likelihood and parameter count the
strict ordering AIC < BIC holds whenever nobs exceeds e squared and at
least one parameter is present (with zero parameters the two criteria
coincide). -/
theorem claim_C9 (r : MLEResultsData) :
    aic r = -2 * llf r + 2 * r.params.length ∧
      bic r = -2 * llf r + r.params.length * Real.log r.nobs ∧
      (1 ≤ r.params.length → Real.exp 2 < (r.nobs : ℝ) → aic r < bic r) := by
  refine ⟨rfl, rfl, fun hk hn => ?_⟩
  have hlog : (2 : ℝ) < Real.log r.nobs := by
    rw [Real.lt_log_iff_exp_lt (lt_trans (Real.exp_pos 2) hn)]
    exact hn
  have hk2 : (1 : ℝ) ≤ (r.params.length : ℝ) := by exact_mod_cast hk
  unfold aic bic
  nlinarith

/-- C9 witness: one parameter, 8 observations. -/
theorem claim_C9_witness :
    1 ≤ rW9.params.length ∧ Real.exp 2 < (rW9.nobs : ℝ) ∧ aic rW9 < bic rW9 := by
  have hn : Real.exp 2 < (rW9.nobs : ℝ) := by
    have : ((rW9.nobs : ℕ) : ℝ) = 8 := by norm_num [rW9]
    rw [this]
    exact exp_two_lt_eight
  exact ⟨by decide, hn, (claim_C9 rW9).2.2 (by decide) hn⟩


theorem mkSarimax_ok_inv (inp : SARIMAXInputs) (v : ℝ) (m : Sarimax)
    (hok : mkSarimax inp v = .ok m) : m = buildSarimax inp v := by
  unfold mkSarimax at hok
  split_ifs at hok
  exact ((Except.ok.injEq _ _).mp hok).symm

theorem buildSarimax_mle_regression_false (inp : SARIMAXInputs) (v : ℝ)
    (hexog : inp.exog_cols = none ∨ inp.exog_cols = some 0) :
    (buildSarimax inp v).mle_regression = false := by
  rcases hexog with he | he <;> simp [buildSarimax, he]

theorem buildSarimax_mle_input_irrelevant (inp : SARIMAXInputs) (v : ℝ)
    (hexog : inp.exog_cols = none ∨ inp.exog_cols = some 0) :
    buildSarimax { inp with mle_regression := false } v = buildSarimax inp v := by
  rcases hexog with he | he <;> simp [buildSarimax, he]

theorem mkSarimax_mle_input_irrelevant (inp : SARIMAXInputs) (v : ℝ)
    (htvr : inp.time_varying_regression = false)
    (hexog : inp.exog_cols = none ∨ inp.exog_cols = some 0) :
    mkSarimax { inp with mle_regression := false } v = mkSarimax inp v := by
  unfold mkSarimax
  rw [buildSarimax_mle_input_irrelevant inp v hexog]
  simp only [htvr, Bool.false_and, Bool.and_false]

/-- C10: a model constructed with mle_regression set but with exog
absent or with zero exogenous columns behaves exactly as if
mle_regression were false: the identical model record is constructed
(hence the same k_params and the same parameter transforms) and its
mle_regression attribute is reset to false. -/
theorem claim_C10 (inp : SARIMAXInputs) (v : ℝ) (m : Sarimax)
    (hmle : inp.mle_regression = true)
    (hexog : inp.exog_cols = none ∨ inp.exog_cols = some 0)
    (hok : mkSarimax inp v = .ok m) :
    mkSarimax { inp with mle_regression := false } v = .ok m ∧
      m.mle_regression = false := by
  have htvr : inp.time_varying_regression = false := by
    by_contra hc
    rw [Bool.not_eq_false] at hc
    simp [mkSarimax, hc, hmle] at hok
  constructor
  · rw [mkSarimax_mle_input_irrelevant inp v htvr hexog]
    exact hok
  · rw [mkSarimax_ok_inv inp v m hok]
    exact buildSarimax_mle_regression_false inp v hexog

/-- C10 witness: the default model (mle_regression true, exog absent). -/
theorem claim_C10_witness :
    inpDefault.mle_regression = true ∧ inpDefault.exog_cols = none ∧
      mkSarimax { inpDefault with mle_regression := false } 1 = .ok mDefault ∧
      mDefault.mle_regression = false := by
  have h := claim_C10 inpDefault 1 mDefault rfl (Or.inl rfl) rfl
  exact ⟨rfl, rfl, h.1, h.2⟩

/-- C2 counterexample: on the inpC2x model (one AR parameter with
enforcement off — an identity segment — and the state variance — a
squared variance segment), the round trip maps [2, -1] to [2, 1]: the
negative unconstrained variance entry is not reconstructed, so the
round trip is not exact on the squared variance segments. -/
theorem claim_C2_cex :
    untransform_params mC2x id (transform_params mC2x id [2, -1]) ≠ [2, -1] := by
  have hseg : transformSegs mC2x id =
      [(0, id), (0, id), (1, id), (0, id), (0, id), (0, id),
        (0, sqSeg), (0, sqSeg), (1, sqSeg)] := rfl
  have hseg2 : untransformSegs mC2x id =
      [(0, id), (0, id), (1, id), (0, id), (0, id), (0, id),
        (0, rtSeg), (0, rtSeg), (1, rtSeg)] := rfl
  have h1 : transform_params mC2x id [2, -1] = [2, (1 : ℝ)] := by
    unfold transform_params
    rw [hseg]
    norm_num [applySegs, sqSeg]
  have h2 : untransform_params mC2x id [2, (1 : ℝ)] = [2, 1] := by
    unfold untransform_params
    rw [hseg2]
    norm_num [applySegs, rtSeg, Real.sqrt_one]
  rw [h1, h2]
  intro h
  injection h with ha hb
  injection hb with hc hd
  norm_num at hc

/-- C2 witness: on the default model the round trip reconstructs an
unconstrained vector with a non-negative variance entry exactly. -/
theorem claim_C2_witness :
    untransform_params mDefault id (transform_params mDefault id [2, 3]) = [2, 3] := by
  have h := claim_C2 mDefault id id lenPres_id lenPres_id
    [] [] [2] [] [] [] [] [] [3]
    rfl rfl rfl rfl rfl rfl rfl rfl rfl
    (by intro x hx; simp at hx) (by intro x hx; simp at hx)
    (by intro x hx; rw [List.mem_singleton] at hx; subst hx; norm_num)
  simpa using h
